import Mathlib

/-!
Shallow embedding of the host facade of the quicksocket websocket server
(`src/api.rs`) together with spec-modelled stubs for the `server` and
`consumer_state` modules, which are not part of the sources at hand.
-/

namespace Quicksocket

/-- Websocket messages, after the tungstenite `Message` type used by the
facade: text, binary, and the three control-frame variants. Byte payloads
are modelled as lists of naturals. -/
inductive WsMessage where
  | Text (text : String)
  | Binary (bytes : List Nat)
  | Ping (bytes : List Nat)
  | Pong (bytes : List Nat)
  | Close (frame : Option String)
deriving DecidableEq

/-- The `MessagePayload` enum of `src/api.rs` (lines 54-60): the only two
payload variants the host can present or receive. -/
inductive MessagePayload where
  | Text (text : String)
  | Binary (bytes : List Nat)
deriving DecidableEq

/-- Modelled from the spec: the Supervisor handles published through the
Registry (spec section 3, Supervisor State): liveness receiver, shutdown
sender, the broadcast bus producer (represented by its current receiver
count), and the ingress mailbox consumer (represented by the list of
messages immediately available). Field names follow the accesses in
`src/api.rs`. -/
structure ConsumerState where
  ser_thread_alive_rx : Bool
  ser_req_shutdown_tx : Bool
  ser_msg_receiver_count : Nat
  cli_msg_rx : List WsMessage
deriving DecidableEq

/-- Modelled from the spec: the process-wide Registry (spec section 4.6).
`consumer` is the current Supervisor state, `none` when no Supervisor is
present or the lock is momentarily unavailable; `last_error_slot` is the
overwrite-only last-error slot (spec section 3). -/
structure Registry where
  consumer : Option ConsumerState
  last_error_slot : Option String
deriving DecidableEq

namespace consumer_state

/-- Modelled from the spec: `consumer_state::read` acquires shared access
and invokes the closure on the current Supervisor handles, returning
`some` of its result, or `none` when no Supervisor is present or the lock
is unavailable (spec section 4.6). -/
def read {α : Type} (reg : Registry) (f : ConsumerState → α) : Option α :=
  reg.consumer.map f

/-- Modelled from the spec: `consumer_state::write`, exclusive-access
counterpart of `read`; the closure may update the state. Returns `none`
and leaves the Registry unchanged on access failure. -/
def write {α : Type} (reg : Registry) (f : ConsumerState → α × ConsumerState) :
    Option α × Registry :=
  match reg.consumer with
  | none => (none, reg)
  | some state =>
    let r := f state
    (some r.1, { reg with consumer := some r.2 })

/-- Modelled from the spec: `consumer_state::weakly_record_error` stores a
message in the overwrite-only last-error slot (spec section 3). -/
def weakly_record_error (msg : String) (reg : Registry) : Registry :=
  { reg with last_error_slot := some msg }

/-- Modelled from the spec: `consumer_state::try_get_last_error` returns
the most recently recorded error string, or none (spec section 4.7). -/
def try_get_last_error (reg : Registry) : Option String :=
  reg.last_error_slot

end consumer_state

/-- Modelled from the tokio broadcast channel used for `ser_msg_tx`:
`send` returns the number of active receivers, or an error carrying the
unsent value when there are no active receivers. -/
def broadcastSend (receiver_count : Nat) (messages : List WsMessage) :
    Except (List WsMessage) Nat :=
  if receiver_count = 0 then Except.error messages else Except.ok receiver_count

/-- Outcome of an attempted Supervisor startup, the environment input to
the spec-modelled `server::start`. -/
inductive StartOutcome where
  | success
  | failure (cause : String)
deriving DecidableEq

/-- Modelled from the spec: the fresh Supervisor state published by a
successful `server::start`: liveness true, shutdown false, no subscribers
yet, empty mailbox (spec section 4.5). -/
def fresh_consumer_state : ConsumerState :=
  { ser_thread_alive_rx := true
    ser_req_shutdown_tx := false
    ser_msg_receiver_count := 0
    cli_msg_rx := [] }

/-- Modelled from the spec: `server::start` (module `server` is not among
the sources at hand). On success it publishes fresh handles to the
Registry with liveness true; on failure handles are rolled back out of
the Registry and the last-error slot is populated with the cause (spec
section 4.5). -/
def server_start (oc : StartOutcome) (reg : Registry) : Except Unit Unit × Registry :=
  match oc with
  | StartOutcome.success =>
    (Except.ok (), { reg with consumer := some fresh_consumer_state })
  | StartOutcome.failure cause =>
    (Except.error (), consumer_state.weakly_record_error cause reg)

/-- `is_server_running` from `src/api.rs` (lines 30-35): reads the
liveness watch through the Registry, defaulting to false when the read
fails. -/
def is_server_running (reg : Registry) : Bool :=
  (consumer_state.read reg (fun state => state.ser_thread_alive_rx)).getD false

/-- `start_server` from `src/api.rs` (lines 14-26). The boolean result is
paired with the updated Registry; `oc` is the environment outcome of the
spec-modelled `server::start`. -/
def start_server (oc : StartOutcome) (reg : Registry) : Bool × Registry :=
  if is_server_running reg then
    (false, consumer_state.weakly_record_error
      ("Server is already running, can\x27t invoke start_server().") reg)
  else
    match server_start oc reg with
    | (Except.ok _, reg2) => (true, reg2)
    | (Except.error _, reg2) => (false, reg2)

/-- `shutdown_server` from `src/api.rs` (lines 39-43): sends true on the
shutdown watch through a Registry write, ignoring the send result; the
Rust function returns unit and cannot fail. -/
def shutdown_server (reg : Registry) : Registry :=
  (consumer_state.write reg
    (fun state => ((), { state with ser_req_shutdown_tx := true }))).2

/-- `get_last_error_string` from `src/api.rs` (lines 47-49). -/
def get_last_error_string (reg : Registry) : Option String :=
  consumer_state.try_get_last_error reg

/-- The outbound conversion inside `try_send_messages` (`src/api.rs`
lines 87-90): `MessagePayload` to tungstenite message. -/
def payload_to_ws : MessagePayload → WsMessage
  | MessagePayload.Text text => WsMessage.Text text
  | MessagePayload.Binary bytes => WsMessage.Binary bytes

/-- `try_send_messages` from `src/api.rs` (lines 85-109). The failure
check at lines 97-106 has an empty body in the source (both the error
recording and the error return are commented out), so every branch
returns `Ok(())` and the Registry is left untouched. -/
def try_send_messages (messages : List MessagePayload) (reg : Registry) :
    Except String Unit × Registry :=
  let ws_messages := messages.map payload_to_ws
  let send_res := consumer_state.read reg
    (fun state => broadcastSend state.ser_msg_receiver_count ws_messages)
  match send_res with
  | none => (Except.ok (), reg)
  | some (Except.error _) => (Except.ok (), reg)
  | some (Except.ok _) => (Except.ok (), reg)

/-- The inbound conversion inside `drain_client_message_bytes`
(`src/api.rs` lines 123-129): Text and Binary convert, Ping, Pong and
Close are dropped. -/
def ws_to_payload : WsMessage → Option MessagePayload
  | WsMessage.Text text => some (MessagePayload.Text text)
  | WsMessage.Binary bytes => some (MessagePayload.Binary bytes)
  | WsMessage.Ping _ => none
  | WsMessage.Pong _ => none
  | WsMessage.Close _ => none

/-- The drain loop of `drain_client_message_bytes` (`src/api.rs` lines
120-131): consume every immediately available message, pushing the
converted payload when the conversion yields one. -/
def drain_loop : List WsMessage → List MessagePayload
  | [] => []
  | cli_msg :: rest =>
    match ws_to_payload cli_msg with
    | some converted_msg => converted_msg :: drain_loop rest
    | none => drain_loop rest

/-- `drain_client_message_bytes` from `src/api.rs` (lines 113-141): drains
the mailbox under a Registry write, returning the empty list when the
write fails. -/
def drain_client_message_bytes (reg : Registry) : List MessagePayload × Registry :=
  let r := consumer_state.write reg
    (fun state => (drain_loop state.cli_msg_rx, { state with cli_msg_rx := [] }))
  match r with
  | (none, reg2) => ([], reg2)
  | (some drained_messages, reg2) => (drained_messages, reg2)

/-- Modelled from the spec: a host-language value presented at the facade
boundary; values other than text strings and byte sequences are rejected
with a type error (spec section 6). -/
inductive PyValue where
  | str (s : String)
  | bytes (b : List Nat)
  | other (type_name : String)
deriving DecidableEq

/-- Modelled from the spec: extraction of a `MessagePayload` from a host
value, following the derived conversion on the enum in `src/api.rs`
(lines 54-60): strings become Text, byte sequences become Binary, and any
other value is a type error. -/
def extract_message_payload : PyValue → Except String MessagePayload
  | PyValue.str s => Except.ok (MessagePayload.Text s)
  | PyValue.bytes b => Except.ok (MessagePayload.Binary b)
  | PyValue.other type_name => Except.error ("TypeError: " ++ type_name)

/-- Extraction of the whole batch argument of `try_send_messages`: fails
on the first element that is not a valid payload. -/
def extract_batch : List PyValue → Except String (List MessagePayload)
  | [] => Except.ok []
  | v :: rest =>
    match extract_message_payload v, extract_batch rest with
    | Except.ok p, Except.ok ps => Except.ok (p :: ps)
    | Except.error e, _ => Except.error e
    | Except.ok _, Except.error e => Except.error e

/-- Whether a websocket message is one of the control-frame variants
Ping, Pong, Close. -/
def is_control_frame : WsMessage → Bool
  | WsMessage.Ping _ => true
  | WsMessage.Pong _ => true
  | WsMessage.Close _ => true
  | WsMessage.Text _ => false
  | WsMessage.Binary _ => false

/-- Helper: `try_send_messages` returns `Ok(())` and leaves the Registry
unchanged, whatever the batch and the Registry state. -/
theorem try_send_messages_eq (messages : List MessagePayload) (reg : Registry) :
    try_send_messages messages reg = (Except.ok (), reg) := by
  unfold try_send_messages
  cases hc : reg.consumer with
  | none => simp [consumer_state.read, hc]
  | some state =>
    simp only [consumer_state.read, hc, Option.map]
    cases broadcastSend state.ser_msg_receiver_count (messages.map payload_to_ws) <;> rfl

/-- Helper: a control frame converts to nothing. -/
theorem ws_to_payload_control (m : WsMessage) (h : is_control_frame m = true) :
    ws_to_payload m = none := by
  cases m <;> simp_all [is_control_frame, ws_to_payload]

/-- Helper: on a queue free of control frames, the drain loop converts
every message, and converting the result back gives the queue. -/
theorem drain_loop_roundtrip (q : List WsMessage)
    (h : ∀ m ∈ q, is_control_frame m = false) :
    (drain_loop q).map payload_to_ws = q := by
  induction q with
  | nil => rfl
  | cons m rest ih =>
    have hm : is_control_frame m = false := h m (by simp)
    have hrest : ∀ x ∈ rest, is_control_frame x = false :=
      fun x hx => h x (List.mem_cons_of_mem _ hx)
    cases m with
    | Text t => simp [drain_loop, ws_to_payload, payload_to_ws, ih hrest]
    | Binary b => simp [drain_loop, ws_to_payload, payload_to_ws, ih hrest]
    | Ping b => simp [is_control_frame] at hm
    | Pong b => simp [is_control_frame] at hm
    | Close f => simp [is_control_frame] at hm

/-- Helper: deleting a control frame anywhere in the queue does not change
the output of the drain loop. -/
theorem drain_loop_drops_control (pre post : List WsMessage) (c : WsMessage)
    (h : is_control_frame c = true) :
    drain_loop (pre ++ c :: post) = drain_loop (pre ++ post) := by
  induction pre with
  | nil => simp [drain_loop, ws_to_payload_control c h]
  | cons m rest ih =>
    simp only [List.cons_append, drain_loop, List.append_eq]
    cases ws_to_payload m <;> simp [ih]

/-- C1 counterexample: with no Supervisor present the Registry read fails,
yet `try_send_messages` still returns success, contrary to the claim that
Registry-access failure is reported as failure. -/
theorem try_send_registry_failure_counterexample :
    consumer_state.read { consumer := none, last_error_slot := none }
      (fun state => state.ser_msg_receiver_count) = none ∧
    (try_send_messages [MessagePayload.Text ("x")]
      { consumer := none, last_error_slot := none }).1 = Except.ok () :=
  ⟨rfl, rfl⟩

/-- C1 (amended): for every batch of valid payloads `try_send_messages`
returns success, regardless of the number of subscribers, and it also
returns success, without raising, when Registry access fails. -/
theorem try_send_success_contract (messages : List MessagePayload)
    (state : ConsumerState) (le : Option String) :
    (try_send_messages messages { consumer := some state, last_error_slot := le }).1
      = Except.ok () ∧
    (try_send_messages messages { consumer := none, last_error_slot := le }).1
      = Except.ok () := by
  constructor <;> rw [try_send_messages_eq]

/-- C2: `start_server` returns true iff the Supervisor was not already
live and startup succeeded; when it is not live and startup fails, it
returns false and the last-error slot holds the cause. -/
theorem start_server_contract (oc : StartOutcome) (reg : Registry) :
    ((start_server oc reg).1 = true ↔
      (is_server_running reg = false ∧ oc = StartOutcome.success)) ∧
    (is_server_running reg = true → (start_server oc reg).1 = false) ∧
    (∀ cause, is_server_running reg = false → oc = StartOutcome.failure cause →
      (start_server oc reg).1 = false ∧
      get_last_error_string (start_server oc reg).2 = some cause) := by
  refine ⟨?_, ?_, ?_⟩
  · constructor
    · intro h
      by_cases hr : is_server_running reg
      · simp [start_server, hr] at h
      · refine ⟨by simp [hr], ?_⟩
        cases oc with
        | success => rfl
        | failure cause => simp [start_server, hr, server_start] at h
    · rintro ⟨hr, hoc⟩
      simp [start_server, hr, hoc, server_start]
  · intro hr
    simp [start_server, hr]
  · intro cause hr hoc
    subst hoc
    constructor
    · simp [start_server, hr, server_start]
    · simp [start_server, hr, server_start, get_last_error_string,
        consumer_state.try_get_last_error, consumer_state.weakly_record_error]

/-- C2 witness: concrete failing startup on an empty Registry. -/
theorem start_server_contract_witness :
    (start_server (StartOutcome.failure ("boom"))
      { consumer := none, last_error_slot := none }).1 = false ∧
    get_last_error_string (start_server (StartOutcome.failure ("boom"))
      { consumer := none, last_error_slot := none }).2 = some ("boom") :=
  (start_server_contract (StartOutcome.failure ("boom"))
    { consumer := none, last_error_slot := none }).2.2 ("boom") rfl rfl

/-- C3: when the server is not yet running, a successful `start_server`
returns true, a second `start_server` returns false, and after it the
last-error slot holds the already-running message. -/
theorem double_start_contract (oc2 : StartOutcome) (reg : Registry)
    (h : is_server_running reg = false) :
    (start_server StartOutcome.success reg).1 = true ∧
    (start_server oc2 (start_server StartOutcome.success reg).2).1 = false ∧
    get_last_error_string
      (start_server oc2 (start_server StartOutcome.success reg).2).2 =
      some ("Server is already running, can\x27t invoke start_server().") := by
  have h1 : start_server StartOutcome.success reg =
      (true, { reg with consumer := some fresh_consumer_state }) := by
    simp [start_server, h, server_start]
  have h2 : is_server_running { reg with consumer := some fresh_consumer_state } = true := by
    simp [is_server_running, consumer_state.read, fresh_consumer_state]
  refine ⟨by rw [h1], ?_, ?_⟩
  · rw [h1]
    simp [start_server, h2]
  · rw [h1]
    simp [start_server, h2, get_last_error_string, consumer_state.try_get_last_error,
      consumer_state.weakly_record_error]

/-- C3 witness: double start from an empty Registry. -/
theorem double_start_contract_witness :
    (start_server StartOutcome.success { consumer := none, last_error_slot := none }).1 = true ∧
    (start_server StartOutcome.success
      (start_server StartOutcome.success
        { consumer := none, last_error_slot := none }).2).1 = false ∧
    get_last_error_string
      (start_server StartOutcome.success
        (start_server StartOutcome.success
          { consumer := none, last_error_slot := none }).2).2 =
      some ("Server is already running, can\x27t invoke start_server().") :=
  double_start_contract StartOutcome.success
    { consumer := none, last_error_slot := none } rfl

/-- C4: when the mailbox holds only data frames, `drain_client_message_bytes`
returns exactly those messages in FIFO order (converting the result back
with the outbound conversion recovers the queue verbatim); it returns the
empty sequence when the mailbox is empty and when the Registry write
fails. -/
theorem drain_contract (state : ConsumerState) (le : Option String)
    (h : ∀ m ∈ state.cli_msg_rx, is_control_frame m = false) :
    ((drain_client_message_bytes
        { consumer := some state, last_error_slot := le }).1.map payload_to_ws
      = state.cli_msg_rx) ∧
    (drain_client_message_bytes
      { consumer := some { state with cli_msg_rx := [] }, last_error_slot := le }).1 = [] ∧
    (drain_client_message_bytes { consumer := none, last_error_slot := le }).1 = [] := by
  refine ⟨?_, rfl, rfl⟩
  simp only [drain_client_message_bytes, consumer_state.write]
  exact drain_loop_roundtrip state.cli_msg_rx h

/-- C4 witness: draining a two-message mailbox. -/
theorem drain_contract_witness :
    ((drain_client_message_bytes
        (Registry.mk (some (ConsumerState.mk true false 2
          [WsMessage.Text ("hi"), WsMessage.Binary [255]])) none)).1.map payload_to_ws
      = [WsMessage.Text ("hi"), WsMessage.Binary [255]]) ∧
    (drain_client_message_bytes
      (Registry.mk (some (ConsumerState.mk true false 2 [])) none)).1 = [] ∧
    (drain_client_message_bytes (Registry.mk none none)).1 = [] :=
  drain_contract
    (ConsumerState.mk true false 2 [WsMessage.Text ("hi"), WsMessage.Binary [255]])
    none (by decide)

/-- C5: a Ping, Pong or Close frame in the mailbox never appears in the
output of `drain_client_message_bytes`: deleting it from the queue leaves
the drained list unchanged. -/
theorem control_frames_hidden (state : ConsumerState) (le : Option String)
    (pre post : List WsMessage) (c : WsMessage)
    (h : is_control_frame c = true) :
    (drain_client_message_bytes
      { consumer := some { state with cli_msg_rx := pre ++ c :: post },
        last_error_slot := le }).1 =
    (drain_client_message_bytes
      { consumer := some { state with cli_msg_rx := pre ++ post },
        last_error_slot := le }).1 := by
  simp only [drain_client_message_bytes, consumer_state.write]
  exact drain_loop_drops_control pre post c h

/-- C5 witness: a Ping between two data frames does not appear in the
drain output. -/
theorem control_frames_hidden_witness :
    (drain_client_message_bytes
      (Registry.mk (some (ConsumerState.mk true false 0
        ([WsMessage.Text ("a")] ++ WsMessage.Ping [0] :: [WsMessage.Binary [1]]))) none)).1 =
    (drain_client_message_bytes
      (Registry.mk (some (ConsumerState.mk true false 0
        ([WsMessage.Text ("a")] ++ [WsMessage.Binary [1]]))) none)).1 :=
  control_frames_hidden (ConsumerState.mk true false 0 [])
    none [WsMessage.Text ("a")] [WsMessage.Binary [1]] (WsMessage.Ping [0]) rfl

/-- C6: `shutdown_server` is a total function returning unit in the
source, so it never fails; it is idempotent on the Registry; it signals
the shutdown watch when a Supervisor is present and is a no-op when the
Registry is unavailable. -/
theorem shutdown_contract (reg : Registry) (state : ConsumerState) (le : Option String) :
    shutdown_server (shutdown_server reg) = shutdown_server reg ∧
    shutdown_server { consumer := some state, last_error_slot := le } =
      { consumer := some { state with ser_req_shutdown_tx := true }, last_error_slot := le } ∧
    shutdown_server { consumer := none, last_error_slot := le } =
      { consumer := none, last_error_slot := le } := by
  refine ⟨?_, rfl, rfl⟩
  cases hc : reg.consumer with
  | none => simp [shutdown_server, consumer_state.write, hc]
  | some st => simp [shutdown_server, consumer_state.write, hc]

/-- C7: `is_server_running` returns the current value of the liveness
watch, and false when the Registry read fails. -/
theorem is_running_contract (state : ConsumerState) (le : Option String) :
    is_server_running { consumer := some state, last_error_slot := le } =
      state.ser_thread_alive_rx ∧
    is_server_running { consumer := none, last_error_slot := le } = false :=
  ⟨rfl, rfl⟩

/-- C8: at the facade boundary, strings and byte sequences extract to the
Text and Binary payloads, any other value is rejected with a type error,
and a batch extracts successfully iff every element does; on every batch
of valid payloads `try_send_messages` returns no error. -/
theorem facade_boundary_contract (s : String) (b : List Nat) (tn : String)
    (vs : List PyValue) (messages : List MessagePayload) (reg : Registry) :
    extract_message_payload (PyValue.str s) = Except.ok (MessagePayload.Text s) ∧
    extract_message_payload (PyValue.bytes b) = Except.ok (MessagePayload.Binary b) ∧
    extract_message_payload (PyValue.other tn) = Except.error ("TypeError: " ++ tn) ∧
    (extract_batch (PyValue.other tn :: vs) = Except.error ("TypeError: " ++ tn)) ∧
    (try_send_messages messages reg).1 = Except.ok () := by
  refine ⟨rfl, rfl, rfl, rfl, ?_⟩
  rw [try_send_messages_eq]

/-- C9: the outbound conversion of `try_send_messages` and the inbound
conversion of `drain_client_message_bytes` are mutually inverse on Text
and Binary values, preserving content and kind. -/
theorem conversion_roundtrip (p : MessagePayload) (w : WsMessage)
    (h : is_control_frame w = false) :
    ws_to_payload (payload_to_ws p) = some p ∧
    (ws_to_payload w).map payload_to_ws = some w := by
  constructor
  · cases p <;> rfl
  · cases w <;> simp_all [is_control_frame, ws_to_payload, payload_to_ws]

/-- C9 witness: round trip on a concrete text payload and a concrete
binary frame. -/
theorem conversion_roundtrip_witness :
    ws_to_payload (payload_to_ws (MessagePayload.Text ("a"))) =
      some (MessagePayload.Text ("a")) ∧
    (ws_to_payload (WsMessage.Binary [1, 2])).map payload_to_ws =
      some (WsMessage.Binary [1, 2]) :=
  conversion_roundtrip (MessagePayload.Text ("a")) (WsMessage.Binary [1, 2]) rfl

/-- C10: `try_send_messages` returns `Ok(())` unconditionally and leaves
the Registry, in particular the last-error slot, untouched: Registry-read
failures and broadcast-send errors are silently swallowed. -/
theorem try_send_unconditional_ok (messages : List MessagePayload) (reg : Registry) :
    (try_send_messages messages reg).1 = Except.ok () ∧
    (try_send_messages messages reg).2.last_error_slot = reg.last_error_slot ∧
    (try_send_messages messages reg).2 = reg := by
  rw [try_send_messages_eq]
  exact ⟨rfl, rfl, rfl⟩

end Quicksocket
